import Mathlib

/-
Verification of the Pathwayz generative assessment pipeline.

The definitions below are a shallow embedding of the repository's API
handlers and client cache logic:

* `callGeminiAPIWithGrounding` — the career-path generator's retry loop
  (generateCareerAdvice handler): up to 3 attempts, exponential backoff
  between attempts, fixed fallback after the last failure.
* `continueGameCall` — the turn-generation oracle call (continueGame
  handler): any failure is replaced by a deterministic, turn-indexed
  fallback response.
* `generateProfileCall` — profile synthesis (generateProfile handler):
  any failure is replaced by a fixed fallback profile.
* `skillCallGeminiAPI` / `skillHandler` — the skill-gap analyzer
  (generateSkillAnalysis handler): one attempt, errors surfaced as 500.
* `checkSkillAnalysisCache` / `generateSkillAnalysis` / `handlePathClick`
  — the client-side skill-analysis cache flow (AdvicePage).

The external oracle (the Gemini HTTP endpoint) is modelled by the outcome
its caller observes on one invocation: a transport error, empty output,
non-JSON output, or a parsed JSON value.  Parsed JSON objects are modelled
with `Option`-typed fields (`none` = field absent), and the JavaScript
truthiness checks of the source (`!x`) are modelled by `strTruthy` /
`arrTruthy`: an absent field or an empty string is falsy, while an array
is truthy as soon as it is present — even when it is empty.  JSON values
of a type other than the one the handler's interface declares (e.g. a
number where a string is expected) are outside the model.
-/

namespace Pathwayz

/-- JS truthiness of a possibly absent string field: `!x` is true exactly
when the field is absent or the empty string. -/
def strTruthy : Option String → Bool
  | none => false
  | some s => s ≠ ""

/-- JS truthiness of a possibly absent array field: every present array is
truthy, including the empty array; only absence is falsy. -/
def arrTruthy {α : Type} : Option (List α) → Bool
  | none => false
  | some _ => true

/-- What one oracle invocation looks like to its caller: the three failure
kinds that happen before shape checking, or a parsed JSON value (whose
shape the caller still has to validate). -/
inductive OracleOutcome (α : Type) where
  | transportError
  | emptyOutput
  | malformedOutput
  | parsed (v : α)

/-- The four oracle-error kinds of the error taxonomy. -/
inductive OracleError where
  | transport
  | empty
  | malformed
  | schema
deriving DecidableEq

/-- Whether this outcome counts as a failed oracle call for a caller whose
shape check is `valid`: the three pre-parse failures, or a parsed value
rejected by the shape check (a schema error). -/
def oracleFails {α : Type} (o : OracleOutcome α) (valid : α → Bool) : Bool :=
  match o with
  | .parsed v => !valid v
  | _ => true

/-! ### Career Path Generator (generateCareerAdvice handler) -/

/-- One career path as parsed from the oracle's JSON (fields may be absent). -/
structure ParsedCareerPath where
  title : Option String
  description : Option String
deriving DecidableEq

/-- Career advice as parsed from the oracle's JSON.  `paths := none` models
both an absent `paths` field and a non-array value (either fails the
handler's `!careerAdvice.paths || !Array.isArray(careerAdvice.paths)` test). -/
structure ParsedCareerAdvice where
  direction : Option String
  paths : Option (List ParsedCareerPath)
deriving DecidableEq

/-- The handler's validation of a parsed career advice:
`!direction` fails, `paths` must be a 5-element array, and each path must
have truthy `title` and `description`. -/
def validCareerAdvice (c : ParsedCareerAdvice) : Bool :=
  strTruthy c.direction &&
    (match c.paths with
     | none => false
     | some ps =>
       ps.length == 5 && ps.all (fun p => strTruthy p.title && strTruthy p.description))

/-- What one attempt of the retry loop produces: `some` advice when the
oracle parsed and the validation passed, `none` when anything threw. -/
def attemptResult (o : OracleOutcome ParsedCareerAdvice) : Option ParsedCareerAdvice :=
  match o with
  | .parsed v => if validCareerAdvice v then some v else none
  | _ => none

/-- The fixed fallback career advice returned after all attempts fail. -/
def fallbackCareerAdvice : ParsedCareerAdvice :=
  { direction := some "Your unique blend of analytical thinking and creative problem-solving positions you to lead in India's rapidly evolving tech-driven economy.",
    paths := some
      [ { title := some "AI Ethics Consultant for Indian Enterprises",
          description := some "As India's AI adoption accelerates across sectors like fintech and healthtech, your analytical skills and ethical reasoning make you ideal for ensuring responsible AI implementation in Indian companies, riding the wave of India's Digital India initiative." },
        { title := some "Sustainable Tech Product Manager",
          description := some "With India's focus on renewable energy and sustainable development, your problem-solving approach and interest in technology can drive the creation of green tech solutions, capitalizing on government initiatives like the National Solar Mission." },
        { title := some "Cross-Cultural Design Strategist",
          description := some "Your communication skills and cultural understanding position you to design user experiences for India's diverse market, especially valuable as Indian startups expand globally and international companies localize for India." },
        { title := some "Data-Driven Policy Analyst",
          description := some "Your analytical capabilities align with the growing need for evidence-based policymaking in India's digital governance initiatives, supporting smart city projects and digital transformation across government sectors." },
        { title := some "EdTech Innovation Specialist",
          description := some "Your problem-solving style and interest in technology make you perfect for revolutionizing education delivery in India, especially with the NEP 2020 emphasis on digital learning and skill development." } ] }

/-- The handler's `maxAttempts`. -/
def maxAttempts : Nat := 3

/-- The retry loop of `callGeminiAPIWithGrounding`, indexed by the attempt
number about to run (the source's `attempts` right after its increment) and
the number of loop iterations still allowed.  Along with the advice it
returns the backoff waits applied, in milliseconds and in order
(`Math.pow(2, attempts) * 1000` after a failed non-final attempt).  The
`.error` case is the `throw` after the `while` loop, which the source
marks unreachable. -/
def careerAttempts (oracle : Nat → OracleOutcome ParsedCareerAdvice) :
    Nat → Nat → Except Unit (ParsedCareerAdvice × List Nat)
  | _, 0 => .error ()
  | attemptNo, r + 1 =>
    match attemptResult (oracle attemptNo) with
    | some adv => .ok (adv, [])
    | none =>
      if r = 0 then .ok (fallbackCareerAdvice, [])
      else
        match careerAttempts oracle (attemptNo + 1) r with
        | .ok (adv, waits) => .ok (adv, (2 ^ attemptNo * 1000) :: waits)
        | .error e => .error e

/-- `callGeminiAPIWithGrounding`, with the oracle's behaviour on attempt
`n` given by `oracle n`: the loop entered at attempt 1 with `maxAttempts`
iterations available. -/
def callGeminiAPIWithGrounding (oracle : Nat → OracleOutcome ParsedCareerAdvice) :
    Except Unit (ParsedCareerAdvice × List Nat) :=
  careerAttempts oracle 1 maxAttempts

/-! ### Conversation State Machine turn generation (continueGame handler) -/

/-- One option of a fallback game response (`{id, text}`). -/
structure GameOption where
  id : String
  text : String
deriving DecidableEq

/-- A game response as the handler returns it.  The fallback entries fill
`question` and `options` (the finale entry leaves both absent). -/
structure GameResponse where
  narrative : String
  questionType : String
  question : Option String
  options : Option (List GameOption)
deriving DecidableEq

/-- A game response as parsed from the oracle's JSON, before the handler's
shape check (`!gameResponse.narrative || !gameResponse.questionType`). -/
structure ParsedGameResponse where
  narrative : Option String
  questionType : Option String
deriving DecidableEq

/-- The continueGame handler's validation of a parsed response. -/
def validGameResponse (g : ParsedGameResponse) : Bool :=
  strTruthy g.narrative && strTruthy g.questionType

/-- `fallbackResponses[0]`: generic work-environment question. -/
def fallbackResponse0 : GameResponse :=
  { narrative := "⚠️ [DEMO MODE] Interesting! Your choices show a blend of analytical and creative thinking. Now I'd love to understand more about how you prefer to work and collaborate with others.",
    questionType := "single-choice",
    question := some "When working on a project, which environment helps you perform your best?",
    options := some
      [ { id := "1", text := "Quiet, independent workspace where I can focus deeply" },
        { id := "2", text := "Collaborative team environment with lots of discussion" },
        { id := "3", text := "Flexible mix of both individual and team work" },
        { id := "4", text := "Dynamic, fast-paced environment with variety" } ] }

/-- `fallbackResponses[1]`: generic problem-solving question. -/
def fallbackResponse1 : GameResponse :=
  { narrative := "⚠️ [DEMO MODE] Great insights into your work style! Based on your responses, you seem to have a strong foundation for several exciting career paths. Let me gather a bit more information about your problem-solving approach.",
    questionType := "multi-choice",
    question := some "When facing a challenging problem, which approaches do you naturally gravitate toward?",
    options := some
      [ { id := "1", text := "Break it down into smaller, manageable parts" },
        { id := "2", text := "Research and gather information from multiple sources" },
        { id := "3", text := "Brainstorm creative solutions and think outside the box" },
        { id := "4", text := "Collaborate with others to get different perspectives" } ] }

/-- `fallbackResponses[2]`: generic motivation question. -/
def fallbackResponse2 : GameResponse :=
  { narrative := "⚠️ [DEMO MODE] Great! Let's explore more about your interests and motivations.",
    questionType := "single-choice",
    question := some "What type of activities energize you most?",
    options := some
      [ { id := "1", text := "Leading and organizing team projects" },
        { id := "2", text := "Researching and analyzing complex information" },
        { id := "3", text := "Creating and designing new things" },
        { id := "4", text := "Helping and mentoring others" } ] }

/-- `fallbackResponses[3]`: the finale entry (no question, no options). -/
def fallbackResponse3 : GameResponse :=
  { narrative := "⚠️ [DEMO MODE] Excellent! You've shown remarkable self-awareness throughout this assessment. Based on your responses, I can see you have a unique combination of analytical thinking, creative problem-solving, and collaborative skills. You're well-positioned for several exciting career paths in India's growing economy, particularly in technology, innovation, and emerging fields that value both technical skills and human insight.",
    questionType := "finale",
    question := none,
    options := none }

/-- The handler's `fallbackResponses` array. -/
def fallbackResponses : List GameResponse :=
  [fallbackResponse0, fallbackResponse1, fallbackResponse2, fallbackResponse3]

/-- The turn-based fallback selection (`fallbackIndex`): finale only from
turn 8 on, earlier turns map to the three generic questions. -/
def continueFallbackIndex (currentTurn : Nat) : Nat :=
  if currentTurn ≥ 8 then 3
  else if currentTurn ≥ 5 then 2
  else if currentTurn ≥ 3 then 1
  else 0

/-- `fallbackResponses[fallbackIndex]` for the given turn (the index is
always in range, so the `getD` default is never used). -/
def continueFallback (currentTurn : Nat) : GameResponse :=
  fallbackResponses.getD (continueFallbackIndex currentTurn) fallbackResponse0

/-- The continueGame handler's `callGeminiAPI`: the parsed response when the
oracle call succeeds and passes the shape check (`Sum.inl`), the
deterministic turn-indexed fallback on any failure (`Sum.inr`); it never
throws. -/
def continueGameCall (o : OracleOutcome ParsedGameResponse) (currentTurn : Nat) :
    ParsedGameResponse ⊕ GameResponse :=
  match o with
  | .parsed g => if validGameResponse g then .inl g else .inr (continueFallback currentTurn)
  | _ => .inr (continueFallback currentTurn)

/-! ### Profile Synthesizer (generateProfile handler) -/

/-- A trait profile as parsed from the oracle's JSON (fields may be absent). -/
structure ParsedProfile where
  coreMotivators : Option (List String)
  problemSolvingStyle : Option String
  preferredWorkEnvironment : Option String
  keyAptitudes : Option (List String)
  interestsAndPassions : Option (List String)
  personalitySummary : Option String
deriving DecidableEq

/-- The generateProfile handler's validation: only
`!profileData.coreMotivators || !profileData.problemSolvingStyle ||
!profileData.personalitySummary` is checked. -/
def validProfile (p : ParsedProfile) : Bool :=
  arrTruthy p.coreMotivators && strTruthy p.problemSolvingStyle &&
    strTruthy p.personalitySummary

/-- The fixed fallback profile returned on any failure. -/
def fallbackProfile : ParsedProfile :=
  { coreMotivators := some ["Personal Growth", "Creative Expression"],
    problemSolvingStyle := some "Adaptive & Thoughtful",
    preferredWorkEnvironment := some "Flexible & Collaborative",
    keyAptitudes := some ["Critical Thinking", "Communication", "Adaptability"],
    interestsAndPassions := some ["Technology", "Problem Solving"],
    personalitySummary := some "You demonstrate a balanced approach to challenges, combining analytical thinking with creative solutions. Your responses show someone who values both personal development and meaningful impact, with strong communication skills and adaptability to different situations." }

/-- The generateProfile handler's `callGeminiAPI`: the parsed profile when
the oracle call succeeds and passes the three-field check, the fixed
fallback profile on any failure; it never throws. -/
def generateProfileCall (o : OracleOutcome ParsedProfile) : ParsedProfile :=
  match o with
  | .parsed p => if validProfile p then p else fallbackProfile
  | _ => fallbackProfile

/-! ### Skill Gap Analyzer (generateSkillAnalysis handler) -/

/-- A skill analysis as parsed from the oracle's JSON.  `none` on an array
field models an absent field; a present array of any length (empty
included) is modelled by `some`, mirroring that `![]` is false and
`Array.isArray([])` is true in the handler. -/
structure ParsedSkillAnalysis where
  brief : Option String
  totalSkills : Option (List String)
  skillGap : Option (List String)
deriving DecidableEq

/-- The generateSkillAnalysis handler's validation:
`!brief || !totalSkills || !skillGap` must fail, and both lists must be
arrays — emptiness of the arrays is not checked. -/
def validSkillAnalysis (s : ParsedSkillAnalysis) : Bool :=
  strTruthy s.brief && arrTruthy s.totalSkills && arrTruthy s.skillGap

/-- The generateSkillAnalysis handler's `callGeminiAPI`: one attempt, no
retry; every failure, schema failures included, is rethrown to the caller. -/
def skillCallGeminiAPI (o : OracleOutcome ParsedSkillAnalysis) :
    Except OracleError ParsedSkillAnalysis :=
  match o with
  | .transportError => .error .transport
  | .emptyOutput => .error .empty
  | .malformedOutput => .error .malformed
  | .parsed v => if validSkillAnalysis v then .ok v else .error .schema

/-- The generateSkillAnalysis HTTP handler: 400 when the request body lacks
the profile or the path, otherwise one oracle call whose error becomes a
500 response — never substituted content. -/
def skillHandler (hasProfile hasPath : Bool) (o : OracleOutcome ParsedSkillAnalysis) :
    Nat × Option ParsedSkillAnalysis :=
  if !hasProfile then (400, none)
  else if !hasPath then (400, none)
  else
    match skillCallGeminiAPI o with
    | .ok v => (200, some v)
    | .error _ => (500, none)

/-! ### Client-side skill-analysis cache (AdvicePage) -/

/-- The cache state the AdvicePage flow reads and writes: the in-memory
`skillAnalysisCache` component state and the `skillAnalysis/{uid}`
Firestore document (`none` = document absent).  Both map a path title to
its analysis; newer bindings are prepended, so lookup sees the newest. -/
structure CacheState where
  localCache : List (String × ParsedSkillAnalysis)
  store : Option (List (String × ParsedSkillAnalysis))
deriving DecidableEq

/-- The failure behaviour of the collaborators during one `handlePathClick`:
whether the Firestore read in `checkSkillAnalysisCache` throws, whether the
save block in `generateSkillAnalysis` throws, and what the
`/api/generateSkillAnalysis` call's oracle does. -/
structure ClientEnv where
  storeReadFails : Bool
  storeWriteFails : Bool
  apiOutcome : OracleOutcome ParsedSkillAnalysis

/-- `checkSkillAnalysisCache`: local cache first; on a local miss read the
Firestore document (a throwing read is caught and counts as a miss); a
Firestore hit is copied into the local cache.  Returns the entry found, if
any, and the updated state. -/
def checkSkillAnalysisCache (st : CacheState) (env : ClientEnv) (title : String) :
    Option ParsedSkillAnalysis × CacheState :=
  match st.localCache.lookup title with
  | some a => (some a, st)
  | none =>
    if env.storeReadFails then (none, st)
    else
      match st.store with
      | some data =>
        match data.lookup title with
        | some a => (some a, { st with localCache := (title, a) :: st.localCache })
        | none => (none, st)
      | none => (none, st)

/-- `generateSkillAnalysis` (client): call the API (whose failure rethrows),
then try to persist the result into the Firestore document — a failing save
is swallowed — then insert it into the local cache and return it. -/
def generateSkillAnalysis (st : CacheState) (env : ClientEnv) (title : String) :
    Except OracleError (ParsedSkillAnalysis × CacheState) :=
  match skillCallGeminiAPI env.apiOutcome with
  | .error e => .error e
  | .ok v =>
    let afterSave :=
      if env.storeWriteFails then st
      else { st with store := some ((title, v) :: st.store.getD []) }
    .ok (v, { afterSave with localCache := (title, v) :: afterSave.localCache })

/-- What one `handlePathClick` leaves behind: the analysis shown (if any),
whether the error state was set instead, the final cache state, and how
many oracle invocations were made. -/
structure ClickResult where
  shown : Option ParsedSkillAnalysis
  errorShown : Bool
  final : CacheState
  oracleCalls : Nat
deriving DecidableEq

/-- `handlePathClick`: cache first, generate only on a miss; a generation
error sets the error state rather than escaping. -/
def handlePathClick (st : CacheState) (env : ClientEnv) (title : String) : ClickResult :=
  match checkSkillAnalysisCache st env title with
  | (some a, st1) => { shown := some a, errorShown := false, final := st1, oracleCalls := 0 }
  | (none, st1) =>
    match generateSkillAnalysis st1 env title with
    | .ok (v, st2) => { shown := some v, errorShown := false, final := st2, oracleCalls := 1 }
    | .error _ => { shown := none, errorShown := true, final := st1, oracleCalls := 1 }

/-! ### Helper lemmas -/

/-- A string field is truthy exactly when it is present and non-empty. -/
lemma strTruthy_iff (o : Option String) : strTruthy o = true ↔ ∃ s, o = some s ∧ s ≠ "" := by
  cases o <;> simp [strTruthy]

/-- An attempt of the career-advice retry loop only hands back advice that
passed the validation. -/
lemma attemptResult_valid {o : OracleOutcome ParsedCareerAdvice} {v : ParsedCareerAdvice}
    (h : attemptResult o = some v) : validCareerAdvice v = true := by
  cases o with
  | parsed w =>
    by_cases hw : validCareerAdvice w
    · simp [attemptResult, hw] at h
      subst h
      exact hw
    · simp [attemptResult, hw] at h
  | transportError => simp [attemptResult] at h
  | emptyOutput => simp [attemptResult] at h
  | malformedOutput => simp [attemptResult] at h

/-- Whatever the retry loop returns passes the career-advice validation
(the fallback does too). -/
lemma careerAttempts_ok_valid (oracle : Nat → OracleOutcome ParsedCareerAdvice) :
    ∀ r a adv waits, careerAttempts oracle a r = .ok (adv, waits) →
      validCareerAdvice adv = true := by
  intro r
  induction r with
  | zero => intro a adv waits h; simp [careerAttempts] at h
  | succ r ih =>
    intro a adv waits h
    rw [careerAttempts] at h
    cases ho : attemptResult (oracle a) with
    | some w =>
      rw [ho] at h
      simp at h
      rw [← h.1]
      exact attemptResult_valid ho
    | none =>
      rw [ho] at h
      by_cases hr : r = 0
      · subst hr
        simp at h
        rw [← h.1]
        decide
      · simp [hr] at h
        cases hc : careerAttempts oracle (a + 1) r with
        | ok p =>
          rw [hc] at h
          cases p with | mk adv2 waits2 =>
          simp at h
          rw [← h.1]
          exact ih (a + 1) adv2 waits2 hc
        | error e => rw [hc] at h; simp at h

/-- The waits the retry loop applies, starting at attempt `a` with `r`
iterations allowed: consecutive powers of two times 1000 ms from `a` on,
and strictly fewer waits than iterations (none after the last attempt). -/
lemma careerAttempts_waits (oracle : Nat → OracleOutcome ParsedCareerAdvice) :
    ∀ r a adv waits, careerAttempts oracle a r = .ok (adv, waits) →
      waits = (List.range' a waits.length).map (fun i => 2 ^ i * 1000) ∧
      waits.length + 1 ≤ r := by
  intro r
  induction r with
  | zero => intro a adv waits h; simp [careerAttempts] at h
  | succ r ih =>
    intro a adv waits h
    rw [careerAttempts] at h
    cases ho : attemptResult (oracle a) with
    | some w =>
      rw [ho] at h
      simp at h
      obtain ⟨-, hw⟩ := h
      subst hw
      simp
    | none =>
      rw [ho] at h
      by_cases hr : r = 0
      · subst hr
        simp at h
        obtain ⟨-, hw⟩ := h
        subst hw
        simp
      · simp [hr] at h
        cases hc : careerAttempts oracle (a + 1) r with
        | ok p =>
          rw [hc] at h
          cases p with | mk adv2 waits2 =>
          simp at h
          obtain ⟨hadv, hw⟩ := h
          obtain ⟨hmap, hlen⟩ := ih (a + 1) adv2 waits2 hc
          subst hw
          constructor
          · simp [List.range'_succ]
            exact hmap
          · simp
            omega
        | error e => rw [hc] at h; simp at h

/-- The handler's validation accepts exactly the career advice the spec
describes: present non-empty direction, exactly five paths, each with a
present non-empty title and description. -/
lemma validCareerAdvice_iff (c : ParsedCareerAdvice) :
    validCareerAdvice c = true ↔
      (∃ d, c.direction = some d ∧ d ≠ "") ∧
      ∃ ps, c.paths = some ps ∧ ps.length = 5 ∧
        ∀ p ∈ ps, (∃ t, p.title = some t ∧ t ≠ "") ∧
          ∃ dsc, p.description = some dsc ∧ dsc ≠ "" := by
  cases c with | mk dir paths =>
  cases paths with
  | none => simp [validCareerAdvice]
  | some ps => simp [validCareerAdvice, strTruthy_iff, List.all_eq_true]

/-- A cache lookup that misses leaves the cache state unchanged. -/
lemma checkCache_miss_state (st : CacheState) (env : ClientEnv) (title : String)
    (h : (checkSkillAnalysisCache st env title).1 = none) :
    checkSkillAnalysisCache st env title = (none, st) := by
  unfold checkSkillAnalysisCache at h ⊢
  cases hl : st.localCache.lookup title with
  | some a => simp [hl] at h
  | none =>
    simp [hl] at h ⊢
    by_cases hrf : env.storeReadFails
    · simp [hrf]
    · simp [hrf] at h ⊢
      cases hs : st.store with
      | none => simp [hs]
      | some data =>
        simp [hs] at h ⊢
        cases hd : data.lookup title with
        | some a => simp [hd] at h
        | none => simp [hd]

/-- The skill-analysis validation accepts exactly: a present non-empty
brief, and both skill fields present as arrays of any length. -/
lemma validSkillAnalysis_iff (s : ParsedSkillAnalysis) :
    validSkillAnalysis s = true ↔
      (∃ b, s.brief = some b ∧ b ≠ "") ∧
      s.totalSkills.isSome = true ∧ s.skillGap.isSome = true := by
  cases s with | mk b ts sg =>
  cases ts <;> cases sg <;> simp [validSkillAnalysis, strTruthy_iff, arrTruthy]

/-! ### Claim theorems -/

/-- C1: a parsed career-advice response is accepted exactly when it has a
present, non-empty direction and an array of exactly 5 paths, each with a
present, non-empty title and description; whatever the generator returns
passed that validation (an invalid response is never returned to the
caller); and an invalid first attempt triggers a retry — a second attempt
that validates is what the caller receives. -/
theorem careerAdvice_validation_and_retry (oracle : Nat → OracleOutcome ParsedCareerAdvice) :
    (∀ c : ParsedCareerAdvice, validCareerAdvice c = true ↔
      (∃ d, c.direction = some d ∧ d ≠ "") ∧
      ∃ ps, c.paths = some ps ∧ ps.length = 5 ∧
        ∀ p ∈ ps, (∃ t, p.title = some t ∧ t ≠ "") ∧
          ∃ dsc, p.description = some dsc ∧ dsc ≠ "") ∧
    (∀ adv waits, callGeminiAPIWithGrounding oracle = .ok (adv, waits) →
      validCareerAdvice adv = true) ∧
    (∀ v, attemptResult (oracle 1) = none → attemptResult (oracle 2) = some v →
      callGeminiAPIWithGrounding oracle = .ok (v, [2000])) := by
  refine ⟨validCareerAdvice_iff, ?_, ?_⟩
  · intro adv waits h
    exact careerAttempts_ok_valid oracle maxAttempts 1 adv waits h
  · intro v h1 h2
    simp [callGeminiAPIWithGrounding, maxAttempts, careerAttempts, h1, h2]

/-- Witness for C1 at a concrete oracle: an oracle that always fails on
transport makes the generator return the (valid) fallback advice. -/
theorem careerAdvice_validation_and_retry_witness :
    validCareerAdvice fallbackCareerAdvice = true :=
  (careerAdvice_validation_and_retry (fun _ => .transportError)).2.1
    fallbackCareerAdvice [2000, 4000] rfl

/-- C2: when all 3 attempts fail, the generator returns the fixed fallback
advice — once, as a success, with no delay after the final attempt — and
the fallback itself passes the 5-path validation. -/
theorem careerAdvice_fallback_after_three_failures
    (oracle : Nat → OracleOutcome ParsedCareerAdvice)
    (h1 : attemptResult (oracle 1) = none) (h2 : attemptResult (oracle 2) = none)
    (h3 : attemptResult (oracle 3) = none) :
    callGeminiAPIWithGrounding oracle = .ok (fallbackCareerAdvice, [2000, 4000]) ∧
    validCareerAdvice fallbackCareerAdvice = true := by
  refine ⟨?_, by decide⟩
  simp [callGeminiAPIWithGrounding, maxAttempts, careerAttempts, h1, h2, h3]

/-- Witness for C2: an oracle that returns empty output on every attempt. -/
theorem careerAdvice_fallback_after_three_failures_witness :
    callGeminiAPIWithGrounding (fun _ => .emptyOutput) =
      .ok (fallbackCareerAdvice, [2000, 4000]) ∧
    validCareerAdvice fallbackCareerAdvice = true :=
  careerAdvice_fallback_after_three_failures (fun _ => .emptyOutput) rfl rfl rfl

/-- C5: every run of the generator applies backoff waits that follow
`delay(attempt) = 2^attempt * 1000` ms from attempt 1 on (2s, then 4s),
applies at most `maxAttempts - 1` of them — so never one after the final
attempt — and applies none at all when the first attempt succeeds. -/
theorem careerAdvice_backoff (oracle : Nat → OracleOutcome ParsedCareerAdvice)
    (adv : ParsedCareerAdvice) (waits : List Nat)
    (h : callGeminiAPIWithGrounding oracle = .ok (adv, waits)) :
    waits = (List.range' 1 waits.length).map (fun i => 2 ^ i * 1000) ∧
    waits.length ≤ maxAttempts - 1 ∧
    (∀ v, attemptResult (oracle 1) = some v → waits = []) := by
  obtain ⟨hmap, hlen⟩ := careerAttempts_waits oracle maxAttempts 1 adv waits h
  refine ⟨hmap, by omega, ?_⟩
  intro v hv
  rw [callGeminiAPIWithGrounding, maxAttempts] at h
  rw [careerAttempts, hv] at h
  simp at h
  exact h.2

/-- Witness for C5: an oracle whose first attempt parses and validates
(the fallback advice fed back as oracle output) yields no waits. -/
theorem careerAdvice_backoff_witness :
    ([] : List Nat) = (List.range' 1 ([] : List Nat).length).map (fun i => 2 ^ i * 1000) ∧
    ([] : List Nat).length ≤ maxAttempts - 1 ∧
    (∀ v, attemptResult ((fun _ => OracleOutcome.parsed fallbackCareerAdvice) 1) = some v →
      ([] : List Nat) = []) :=
  careerAdvice_backoff (fun _ => .parsed fallbackCareerAdvice) fallbackCareerAdvice [] rfl

/-- C3: on any oracle failure — transport error, empty output, malformed
JSON, or a response failing the shape check — turn generation returns the
deterministic fallback for the current turn as a success, and profile
synthesis returns the fixed fallback profile; neither propagates the error. -/
theorem turn_and_profile_absorb_oracle_failures (t : Nat)
    (og : OracleOutcome ParsedGameResponse) (op : OracleOutcome ParsedProfile)
    (hg : oracleFails og validGameResponse = true)
    (hp : oracleFails op validProfile = true) :
    continueGameCall og t = .inr (continueFallback t) ∧
    generateProfileCall op = fallbackProfile := by
  constructor
  · cases og with
    | parsed g =>
      simp [oracleFails] at hg
      simp [continueGameCall, hg]
    | transportError => rfl
    | emptyOutput => rfl
    | malformedOutput => rfl
  · cases op with
    | parsed p =>
      simp [oracleFails] at hp
      simp [generateProfileCall, hp]
    | transportError => rfl
    | emptyOutput => rfl
    | malformedOutput => rfl

/-- Witness for C3: a schema failure on turn 2 (empty narrative) and a
transport failure for profile synthesis. -/
theorem turn_and_profile_absorb_oracle_failures_witness :
    continueGameCall (.parsed ⟨some "", some "single-choice"⟩) 2 =
      .inr (continueFallback 2) ∧
    generateProfileCall .transportError = fallbackProfile :=
  turn_and_profile_absorb_oracle_failures 2 (.parsed ⟨some "", some "single-choice"⟩)
    .transportError (by decide) rfl

/-- C4: when the skill-gap analyzer's single oracle call fails in any of
the four ways, the handler responds 500 with no analysis — it never
substitutes fallback content. -/
theorem skillGap_failure_surfaced (o : OracleOutcome ParsedSkillAnalysis)
    (h : oracleFails o validSkillAnalysis = true) :
    skillHandler true true o = (500, none) ∧
    ∃ e, skillCallGeminiAPI o = .error e := by
  cases o with
  | parsed v =>
    simp [oracleFails] at h
    simp [skillHandler, skillCallGeminiAPI, h]
  | transportError => exact ⟨rfl, .transport, rfl⟩
  | emptyOutput => exact ⟨rfl, .empty, rfl⟩
  | malformedOutput => exact ⟨rfl, .malformed, rfl⟩

/-- Witness for C4: the oracle returns no text. -/
theorem skillGap_failure_surfaced_witness :
    skillHandler true true .emptyOutput = (500, none) ∧
    ∃ e, skillCallGeminiAPI .emptyOutput = .error e :=
  skillGap_failure_surfaced .emptyOutput rfl

/-- C6 counterexample: a parsed profile missing `preferredWorkEnvironment`,
`keyAptitudes` and `interestsAndPassions` passes the handler's validation
and is returned as the profile, so the claim that any response missing a
required field is rejected is false. -/
theorem profile_sixfield_claim_counterexample :
    generateProfileCall (.parsed
      { coreMotivators := some ["Curiosity"],
        problemSolvingStyle := some "Analytical & Methodical",
        preferredWorkEnvironment := none,
        keyAptitudes := none,
        interestsAndPassions := none,
        personalitySummary := some "A short summary." }) =
      { coreMotivators := some ["Curiosity"],
        problemSolvingStyle := some "Analytical & Methodical",
        preferredWorkEnvironment := none,
        keyAptitudes := none,
        interestsAndPassions := none,
        personalitySummary := some "A short summary." } := by
  simp [generateProfileCall, validProfile, arrTruthy, strTruthy]

/-- C6 (amended): profile synthesis validates only three of the six
fields — `coreMotivators` present (truthy even when empty),
`problemSolvingStyle` and `personalitySummary` present and non-empty; a
response passing that check is returned as-is, one failing it is replaced
by the fallback profile. -/
theorem profile_validation_three_fields (p : ParsedProfile) :
    (validProfile p = true ↔
      p.coreMotivators.isSome = true ∧
      (∃ s, p.problemSolvingStyle = some s ∧ s ≠ "") ∧
      (∃ s, p.personalitySummary = some s ∧ s ≠ "")) ∧
    (validProfile p = true → generateProfileCall (.parsed p) = p) ∧
    (validProfile p = false → generateProfileCall (.parsed p) = fallbackProfile) := by
  refine ⟨?_, ?_, ?_⟩
  · cases p with | mk cm pss pwe ka ip psum =>
    cases cm <;> simp [validProfile, arrTruthy, strTruthy_iff]
  · intro h; simp [generateProfileCall, h]
  · intro h; simp [generateProfileCall, h]

/-- Witness for C6 (amended): the fallback profile itself passes the
three-field check and is returned unchanged. -/
theorem profile_validation_three_fields_witness :
    generateProfileCall (.parsed fallbackProfile) = fallbackProfile :=
  (profile_validation_three_fields fallbackProfile).2.1 (by decide)

/-- C7 counterexample: a skill analysis whose `totalSkills` and `skillGap`
are empty arrays is accepted by the handler's validation, so the claim
that both must be non-empty lists is false. -/
theorem skill_nonempty_claim_counterexample :
    skillCallGeminiAPI (.parsed
      { brief := some "A concise overview of the chosen career path.",
        totalSkills := some [], skillGap := some [] }) =
      .ok
        { brief := some "A concise overview of the chosen career path.",
          totalSkills := some [], skillGap := some [] } := by
  simp [skillCallGeminiAPI, validSkillAnalysis, arrTruthy, strTruthy]

/-- C7 (amended): on a cache miss the analyzer makes exactly one oracle
invocation (no retry loop), and accepts a response exactly when `brief` is
present and non-empty and `totalSkills` and `skillGap` are present as
arrays — emptiness is not checked; a response failing this is a schema
error. -/
theorem skill_validation_presence_only (s : ParsedSkillAnalysis) (st : CacheState)
    (env : ClientEnv) (title : String) :
    (skillCallGeminiAPI (.parsed s) = .ok s ↔
      (∃ b, s.brief = some b ∧ b ≠ "") ∧
      s.totalSkills.isSome = true ∧ s.skillGap.isSome = true) ∧
    (validSkillAnalysis s = false → skillCallGeminiAPI (.parsed s) = .error .schema) ∧
    ((checkSkillAnalysisCache st env title).1 = none →
      (handlePathClick st env title).oracleCalls = 1) := by
  refine ⟨?_, ?_, ?_⟩
  · constructor
    · intro h
      by_cases hv : validSkillAnalysis s
      · exact (validSkillAnalysis_iff s).1 hv
      · simp [skillCallGeminiAPI, hv] at h
    · intro hch
      have hv := (validSkillAnalysis_iff s).2 hch
      simp [skillCallGeminiAPI, hv]
  · intro h; simp [skillCallGeminiAPI, h]
  · intro h
    have hc := checkCache_miss_state st env title h
    simp only [handlePathClick, hc]
    cases hgen : generateSkillAnalysis st env title with
    | ok p => cases p with | mk w st2 => simp [hgen]
    | error e => simp [hgen]

/-- Witness for C7 (amended): a response with every field absent is a
schema error. -/
theorem skill_validation_presence_only_witness :
    skillCallGeminiAPI (.parsed ⟨none, none, none⟩) = .error .schema :=
  (skill_validation_presence_only ⟨none, none, none⟩ ⟨[], none⟩
    ⟨false, false, .transportError⟩ "Path").2.1 rfl

/-- C8: for turns below 8 the turn-generation fallback never has question
type `finale`; from turn 8 on it is exactly the finale entry. -/
theorem fallback_finale_threshold (t : Nat) :
    (t < 8 → (continueFallback t).questionType ≠ "finale") ∧
    (8 ≤ t → continueFallback t = fallbackResponse3) ∧
    fallbackResponse3.questionType = "finale" := by
  refine ⟨?_, ?_, rfl⟩
  · intro ht
    have h8 : ¬ 8 ≤ t := by omega
    by_cases h5 : 5 ≤ t <;> by_cases h3 : 3 ≤ t <;>
      simp [continueFallback, continueFallbackIndex, fallbackResponses, h8, h5, h3,
        fallbackResponse0, fallbackResponse1, fallbackResponse2]
  · intro ht
    simp [continueFallback, continueFallbackIndex, fallbackResponses, ht]

/-- Witness for C8 at turns 5 and 9. -/
theorem fallback_finale_threshold_witness :
    (continueFallback 5).questionType ≠ "finale" ∧ continueFallback 9 = fallbackResponse3 :=
  ⟨(fallback_finale_threshold 5).1 (by decide),
   (fallback_finale_threshold 9).2.1 (by decide)⟩

/-- C9: a cached skill analysis is returned without any oracle invocation;
and after a miss followed by a successful generation, the result is shown,
the oracle was invoked once, the result sits in the cache under the path
title, and a second identical request — under any collaborator behaviour —
returns it from the cache with no new oracle invocation and no state
change. -/
theorem skill_cache_hit_and_insert (st : CacheState) (env env2 : ClientEnv)
    (title : String) (a v : ParsedSkillAnalysis) :
    ((checkSkillAnalysisCache st env title).1 = some a →
      handlePathClick st env title =
        { shown := some a, errorShown := false,
          final := (checkSkillAnalysisCache st env title).2, oracleCalls := 0 }) ∧
    ((checkSkillAnalysisCache st env title).1 = none →
      skillCallGeminiAPI env.apiOutcome = .ok v →
      (handlePathClick st env title).shown = some v ∧
      (handlePathClick st env title).oracleCalls = 1 ∧
      (handlePathClick st env title).final.localCache.lookup title = some v ∧
      handlePathClick (handlePathClick st env title).final env2 title =
        { shown := some v, errorShown := false,
          final := (handlePathClick st env title).final, oracleCalls := 0 }) := by
  constructor
  · intro h
    rcases hc : checkSkillAnalysisCache st env title with ⟨c, st1⟩
    rw [hc] at h
    simp at h
    subst h
    simp [handlePathClick, hc]
  · intro h hok
    have hc := checkCache_miss_state st env title h
    simp only [handlePathClick, hc, generateSkillAnalysis, hok]
    refine ⟨trivial, trivial, ?_, ?_⟩
    · simp [List.lookup]
    · simp [checkSkillAnalysisCache, List.lookup]

/-- Witness for C9: an empty cache, a successful generation, then a second
click served from the cache even though every collaborator now fails. -/
theorem skill_cache_hit_and_insert_witness :
    handlePathClick
        (handlePathClick ⟨[], none⟩
          ⟨false, false, .parsed ⟨some "Overview", some ["Skill"], some ["Gap"]⟩⟩
          "Path").final
        ⟨true, true, .transportError⟩ "Path" =
      { shown := some ⟨some "Overview", some ["Skill"], some ["Gap"]⟩,
        errorShown := false,
        final := (handlePathClick ⟨[], none⟩
          ⟨false, false, .parsed ⟨some "Overview", some ["Skill"], some ["Gap"]⟩⟩
          "Path").final,
        oracleCalls := 0 } :=
  ((skill_cache_hit_and_insert ⟨[], none⟩
      ⟨false, false, .parsed ⟨some "Overview", some ["Skill"], some ["Gap"]⟩⟩
      ⟨true, true, .transportError⟩ "Path"
      ⟨some "Overview", some ["Skill"], some ["Gap"]⟩
      ⟨some "Overview", some ["Skill"], some ["Gap"]⟩).2 rfl rfl).2.2.2

/-- C10: a failing cache layer never fails a skill-analysis request — a
throwing Firestore read counts as a miss and leaves the state unchanged,
generation still proceeds (one oracle call), and when persisting a
successful analysis fails, the analysis is still shown, the error state is
not set, and the store is untouched. -/
theorem cache_failures_never_fail_request (st : CacheState) (env : ClientEnv)
    (title : String) (v : ParsedSkillAnalysis) :
    (env.storeReadFails = true → st.localCache.lookup title = none →
      checkSkillAnalysisCache st env title = (none, st)) ∧
    (env.storeReadFails = true → st.localCache.lookup title = none →
      (handlePathClick st env title).oracleCalls = 1) ∧
    (env.storeWriteFails = true →
      skillCallGeminiAPI env.apiOutcome = .ok v →
      (checkSkillAnalysisCache st env title).1 = none →
      handlePathClick st env title =
        { shown := some v, errorShown := false,
          final := { localCache := (title, v) :: st.localCache, store := st.store },
          oracleCalls := 1 }) := by
  have hread : ∀ (hr : env.storeReadFails = true) (hl : st.localCache.lookup title = none),
      checkSkillAnalysisCache st env title = (none, st) := by
    intro hr hl
    simp [checkSkillAnalysisCache, hl, hr]
  refine ⟨hread, ?_, ?_⟩
  · intro hr hl
    simp only [handlePathClick, hread hr hl]
    cases hgen : generateSkillAnalysis st env title with
    | ok p => cases p with | mk w st2 => simp [hgen]
    | error e => simp [hgen]
  · intro hw hok h
    have hc := checkCache_miss_state st env title h
    simp only [handlePathClick, hc, generateSkillAnalysis, hok, hw]
    simp

/-- Witness for C10: read and write both fail, the oracle succeeds, and
the click still shows the analysis with the store untouched. -/
theorem cache_failures_never_fail_request_witness :
    checkSkillAnalysisCache ⟨[], none⟩
        ⟨true, true, .parsed ⟨some "Overview", some ["Skill"], some ["Gap"]⟩⟩ "Path" =
      (none, ⟨[], none⟩) ∧
    handlePathClick ⟨[], none⟩
        ⟨true, true, .parsed ⟨some "Overview", some ["Skill"], some ["Gap"]⟩⟩ "Path" =
      { shown := some ⟨some "Overview", some ["Skill"], some ["Gap"]⟩,
        errorShown := false,
        final :=
          { localCache := [("Path", ⟨some "Overview", some ["Skill"], some ["Gap"]⟩)],
            store := none },
        oracleCalls := 1 } :=
  ⟨(cache_failures_never_fail_request ⟨[], none⟩
      ⟨true, true, .parsed ⟨some "Overview", some ["Skill"], some ["Gap"]⟩⟩ "Path"
      ⟨some "Overview", some ["Skill"], some ["Gap"]⟩).1 rfl rfl,
   (cache_failures_never_fail_request ⟨[], none⟩
      ⟨true, true, .parsed ⟨some "Overview", some ["Skill"], some ["Gap"]⟩⟩ "Path"
      ⟨some "Overview", some ["Skill"], some ["Gap"]⟩).2.2 rfl rfl rfl⟩

end Pathwayz
